import Mathlib

/-!
Verification development for the `job-runner` repository
(source: `src/job_runner/runjob.py`).

The file shallowly embeds the parts of `runjob.py` that the specification
talks about:

* the output-monitoring loop (`file_iterator`, lines 20-30, consumed by
  `print_output`, lines 155-170), modelled as an explicit state machine
  driven by a schedule of environment observations (file contents at each
  poll, and the `squeue` answer at each poll);
* the directive-script generator `make_job_script` (lines 33-43);
* the parameter-resolution part of `runjob` (lines 59-112), modelled as a
  pure function from a cached configuration and parsed CLI arguments to a
  fully resolved job specification, with the error cases made explicit;
* the `try`/`except KeyboardInterrupt` wrapper around `print_output`
  (lines 172-176).

File contents are modelled as `List Char`; an append-only write schedule is
a list of snapshots, each a prefix-extension of the previous one.
-/

namespace JobRunner

/- ===================================================================
   JobMonitor model: `file_iterator` (runjob.py lines 20-30) and the
   polling loop of `print_output` (runjob.py lines 162-167).
   =================================================================== -/

/-- One `f.readline()` chunk taken from the unread part of the file:
everything up to and including the first newline, or the whole remainder
when no newline is present yet (a partial final line is returned as is,
exactly as Python's `readline` does on a file opened with `newline=''`). -/
def takeLine : List Char → List Char
  | [] => []
  | c :: cs => if c = '\n' then [c] else c :: takeLine cs

/-- `f.readline()` at read offset `off` into the current file contents. -/
def readlineFrom (file : List Char) (off : Nat) : List Char :=
  takeLine (file.drop off)

/-- State of the monitoring loop: the read offset of the open file handle,
whether `file_iterator` is between its `yield None` and the following
`yield line` (it yields twice per empty read: `None`, then the empty
string), the concatenation of all chunks forwarded (printed) so far, and
whether the loop has ended (the `break` on an empty `squeue` answer). -/
structure MState where
  off : Nat
  pending : Bool
  out : List Char
  done : Bool
deriving DecidableEq, Repr

/-- Monitor state at entry of the `for text in file_iterator(...)` loop. -/
def initMState : MState :=
  { off := 0, pending := false, out := [], done := false }

/-- One `next()` of `file_iterator` together with the consumer's
`if text is not None: print(text, end="")` (runjob.py lines 25-30 and
163-164): either deliver the pending second `yield` of an empty read
(the empty string, printed with no effect), or call `readline`; an empty
result sleeps and yields `None` (nothing printed, `pending` set), a
non-empty chunk is forwarded immediately and the offset advances. -/
def pollRead (file : List Char) (s : MState) : MState :=
  if s.pending then
    { s with pending := false }
  else
    let chunk := readlineFrom file s.off
    if chunk = [] then
      { s with pending := true }
    else
      { s with off := s.off + chunk.length, out := s.out ++ chunk }

/-- One full iteration of the `for` loop in `print_output` (runjob.py
lines 162-167): receive one item from `file_iterator` (printing it when it
is not `None`), then run `squeue`; if the answer is empty, `break`
(`done := true`). `file` is the file's contents at the moment of this
iteration's `readline`, `squeueEmpty` the emptiness of this iteration's
successful `squeue` output. A finished loop no longer steps. -/
def monStep (file : List Char) (squeueEmpty : Bool) (s : MState) : MState :=
  if s.done then s
  else
    let s1 := pollRead file s
    { s1 with done := squeueEmpty }

/-- Run the monitoring loop over a schedule of environment observations,
one `(file contents, squeue empty?)` pair per loop iteration. -/
def monRunFrom : List (List Char × Bool) → MState → MState
  | [], s => s
  | step :: rest, s => monRunFrom rest (monStep step.1 step.2 s)

/-- The file contents after the last step of a schedule (the final
contents of the output file over the observed window). -/
def lastFile : List Char → List (List Char × Bool) → List Char
  | f0, [] => f0
  | _, step :: rest => lastFile step.1 rest

/-- Append-only growth: the later contents extend the earlier contents. -/
def FileExtends (a b : List Char) : Prop := ∃ t, b = a ++ t

/-- A schedule is valid when the file only ever grows by appends, starting
from contents `f0` (the monitor creates the file empty when absent,
runjob.py lines 21-23, so runs start from `f0 = []`). -/
def ValidSched : List Char → List (List Char × Bool) → Prop
  | _, [] => True
  | f0, step :: rest => FileExtends f0 step.1 ∧ ValidSched step.1 rest

/-- Everything the monitor has forwarded is exactly the first `off` bytes
of the file, and the offset never runs past the end of the file. -/
def MonInv (file : List Char) (s : MState) : Prop :=
  s.out = file.take s.off ∧ s.off ≤ file.length

/- ===== helper lemmas about `takeLine` and the invariant ===== -/

theorem takeLine_eq_take (l : List Char) :
    takeLine l = l.take (takeLine l).length := by
  induction l with
  | nil => rfl
  | cons c cs ih =>
    by_cases h : c = '\n'
    · simp [takeLine, h]
    · simp only [takeLine, if_neg h, List.length_cons, List.take_succ_cons]
      exact congrArg (c :: ·) ih

theorem takeLine_length_le (l : List Char) :
    (takeLine l).length ≤ l.length := by
  induction l with
  | nil => exact Nat.le_refl 0
  | cons c cs ih =>
    by_cases h : c = '\n'
    · simp [takeLine, h]
    · simp only [takeLine, if_neg h, List.length_cons]
      exact Nat.succ_le_succ ih

theorem takeLine_eq_nil_iff (l : List Char) :
    takeLine l = [] ↔ l = [] := by
  cases l with
  | nil => simp [takeLine]
  | cons c cs =>
    constructor
    · intro h
      by_cases hc : c = '\n' <;> simp [takeLine, hc] at h
    · intro h
      exact absurd h (List.cons_ne_nil c cs)

theorem pollRead_inv (file : List Char) (s : MState) (h : MonInv file s) :
    MonInv file (pollRead file s) := by
  unfold pollRead
  by_cases hp : s.pending
  · simpa [hp] using h
  · simp only [hp, if_false, Bool.false_eq_true]
    set chunk := readlineFrom file s.off with hchunk
    by_cases hc : chunk = []
    · simpa [hc] using h
    · simp only [hc, if_false]
      have hlen : chunk.length ≤ (file.drop s.off).length := by
        rw [hchunk]
        exact takeLine_length_le (file.drop s.off)
      have hdroplen : (file.drop s.off).length = file.length - s.off :=
        List.length_drop s.off file
      constructor
      · show s.out ++ chunk = file.take (s.off + chunk.length)
        rw [h.1, List.take_add]
        have : chunk = (file.drop s.off).take chunk.length := by
          rw [hchunk]
          exact takeLine_eq_take (file.drop s.off)
        rw [← this]
      · show s.off + chunk.length ≤ file.length
        have h2 : s.off ≤ file.length := h.2
        omega

theorem monStep_inv (file : List Char) (q : Bool) (s : MState)
    (h : MonInv file s) : MonInv file (monStep file q s) := by
  unfold monStep
  by_cases hd : s.done
  · simpa [hd] using h
  · simp only [hd, if_false, Bool.false_eq_true]
    exact pollRead_inv file s h

theorem monInv_extends (f g : List Char) (s : MState)
    (hfg : FileExtends f g) (h : MonInv f s) : MonInv g s := by
  obtain ⟨t, rfl⟩ := hfg
  constructor
  · rw [h.1, List.take_append_of_le_length h.2]
  · calc s.off ≤ f.length := h.2
      _ ≤ f.length + t.length := Nat.le_add_right _ _
      _ = (f ++ t).length := (List.length_append f t).symm

theorem monRun_inv :
    ∀ (sched : List (List Char × Bool)) (f0 : List Char) (s : MState),
      ValidSched f0 sched → MonInv f0 s →
      MonInv (lastFile f0 sched) (monRunFrom sched s) := by
  intro sched
  induction sched with
  | nil => intro f0 s _ h; exact h
  | cons step rest ih =>
    intro f0 s hv h
    have h1 : MonInv step.1 s := monInv_extends f0 step.1 s hv.1 h
    have h2 : MonInv step.1 (monStep step.1 step.2 s) :=
      monStep_inv step.1 step.2 s h1
    exact ih step.1 (monStep step.1 step.2 s) hv.2 h2

theorem monStep_done (file : List Char) (q : Bool) (s : MState) :
    (monStep file q s).done = (s.done || q) := by
  unfold monStep
  by_cases hd : s.done
  · simp [hd]
  · simp [hd]

theorem monRun_done_source :
    ∀ (sched : List (List Char × Bool)) (s : MState),
      (monRunFrom sched s).done = true →
      s.done = true ∨ ∃ p ∈ sched, p.2 = true := by
  intro sched
  induction sched with
  | nil => intro s h; exact Or.inl h
  | cons step rest ih =>
    intro s h
    rcases ih (monStep step.1 step.2 s) h with h1 | h1
    · rw [monStep_done] at h1
      rcases Bool.or_eq_true_iff.mp h1 with h2 | h2
      · exact Or.inl h2
      · exact Or.inr ⟨step, List.mem_cons_self step rest, h2⟩
    · obtain ⟨p, hp, hq⟩ := h1
      exact Or.inr ⟨p, List.mem_cons_of_mem step hp, hq⟩

/- ===== claims about the monitoring loop ===== -/

/-- Claim C1 (amended): the concatenation of all chunks forwarded by the
monitoring loop equals the prefix of the final file contents up to the
monitor's read offset — every forwarded byte appears exactly once and in
order — and it equals the entire final contents exactly when the offset
has reached the end of the file; when the loop breaks with unread bytes
remaining, those bytes are never forwarded (see the counterexample). -/
theorem monitor_forwarded_output_matches_offset
    (sched : List (List Char × Bool)) (h : ValidSched [] sched) :
    (monRunFrom sched initMState).out
        = (lastFile [] sched).take (monRunFrom sched initMState).off
    ∧ ((monRunFrom sched initMState).off = (lastFile [] sched).length →
        (monRunFrom sched initMState).out = lastFile [] sched) := by
  have hinv := monRun_inv sched [] initMState h ⟨rfl, Nat.le_refl 0⟩
  refine ⟨hinv.1, fun he => ?_⟩
  rw [hinv.1, he, List.take_length]

/-- Witness for C1's amended theorem: a concrete two-poll append-only
schedule on which the forwarded output equals the read prefix. -/
theorem monitor_forwarded_output_matches_offset_inst :
    ValidSched [] [(String.toList "ab", false), (String.toList "ab\nc", true)]
    ∧ (monRunFrom [(String.toList "ab", false), (String.toList "ab\nc", true)]
          initMState).out
        = (lastFile [] [(String.toList "ab", false), (String.toList "ab\nc", true)]).take
            (monRunFrom [(String.toList "ab", false), (String.toList "ab\nc", true)]
              initMState).off := by
  have hv : ValidSched []
      [(String.toList "ab", false), (String.toList "ab\nc", true)] := by
    simp only [ValidSched, FileExtends]
    exact ⟨⟨String.toList "ab", by decide⟩, ⟨String.toList "\nc", by decide⟩, trivial⟩
  exact ⟨hv, (monitor_forwarded_output_matches_offset _ hv).1⟩

/-- Counterexample to claim C1 as stated: on the append-only schedule
whose single poll sees contents "ab\ncd" and an empty queue answer, the
loop reads one line, forwards "ab\n", and breaks; the run has terminated
(`done`) yet the concatenation of the forwarded chunks differs from the
final file contents — "cd" is never forwarded. -/
theorem monitor_can_drop_tail_after_break :
    (monRunFrom [(String.toList "ab\ncd", true)] initMState).done = true
    ∧ (monRunFrom [(String.toList "ab\ncd", true)] initMState).out
        ≠ lastFile [] [(String.toList "ab\ncd", true)]
    ∧ ValidSched [] [(String.toList "ab\ncd", true)] := by
  refine ⟨by decide, by decide, ?_⟩
  simp only [ValidSched, FileExtends]
  exact ⟨⟨String.toList "ab\ncd", by decide⟩, trivial⟩

/-- Claim C2 (amended): the loop ends (`done`) only if some poll's status
query returned zero matching entries, and everything the monitor has read
— including the single chunk read in the detecting cycle, printed before
the query — has been forwarded at that point; bytes that were present in
the file during the detecting cycle but beyond that one `readline` chunk
may remain unforwarded (see the counterexample). -/
theorem finished_only_after_empty_query
    (sched : List (List Char × Bool)) (h : ValidSched [] sched)
    (hd : (monRunFrom sched initMState).done = true) :
    (∃ p ∈ sched, p.2 = true)
    ∧ (monRunFrom sched initMState).out
        = (lastFile [] sched).take (monRunFrom sched initMState).off := by
  constructor
  · rcases monRun_done_source sched initMState hd with h0 | h0
    · exact absurd h0 (by decide)
    · exact h0
  · exact (monRun_inv sched [] initMState h ⟨rfl, Nat.le_refl 0⟩).1

/-- Witness for C2's amended theorem at a concrete finishing schedule. -/
theorem finished_only_after_empty_query_inst :
    (∃ p ∈ [(String.toList "x\n", true)], p.2 = true)
    ∧ (monRunFrom [(String.toList "x\n", true)] initMState).out
        = (lastFile [] [(String.toList "x\n", true)]).take
            (monRunFrom [(String.toList "x\n", true)] initMState).off := by
  have hv : ValidSched [] [(String.toList "x\n", true)] := by
    simp only [ValidSched, FileExtends]
    exact ⟨⟨String.toList "x\n", by decide⟩, trivial⟩
  exact finished_only_after_empty_query _ hv (by decide)

/-- Counterexample to claim C2 as stated: absence is detected in the very
poll cycle whose `readline` saw the file at contents "ab\ncd\n"; the loop
breaks having forwarded only the first line, so output bytes present in
the file during that same cycle remain unforwarded at the transition. -/
theorem finished_with_bytes_remaining :
    (monRunFrom [(String.toList "ab\ncd\n", true)] initMState).done = true
    ∧ (monRunFrom [(String.toList "ab\ncd\n", true)] initMState).off
        < (String.toList "ab\ncd\n").length
    ∧ (monRunFrom [(String.toList "ab\ncd\n", true)] initMState).out
        ≠ String.toList "ab\ncd\n" := by
  decide

/- ===================================================================
   Submission (runjob.py line 156) and query failure (line 165).
   =================================================================== -/

/-- Model of `print_output` as a whole (runjob.py lines 155-167): the
submission `proc_output = subprocess.run(['sbatch', slurm_script_path])`
is invoked without `check=True` and without capturing stderr, and the
`CompletedProcess` result is never inspected afterwards, so the monitoring
loop runs identically whatever the submit exit status was. -/
def print_output_model (_submitExitCode : Int)
    (sched : List (List Char × Bool)) : MState :=
  monRunFrom sched initMState

/-- Counterexample to claim C6 as stated: with submit exit status 1 the
run does not fail — monitoring proceeds (the state advances past the
initial state and output is forwarded), and no error of any kind exists
in the control path. -/
theorem submit_failure_not_raised :
    print_output_model 1 [(String.toList "hi\n", true)] ≠ initMState
    ∧ (print_output_model 1 [(String.toList "hi\n", true)]).out
        = String.toList "hi\n" := by
  decide

/-- Claim C6 (amended): the submit operation's exit status (and stderr)
is ignored — no SubmissionError is raised, and monitoring proceeds
identically, with its usual forwarding behaviour, for every exit code. -/
theorem submit_exit_code_ignored (e1 e2 : Int)
    (sched : List (List Char × Bool)) (h : ValidSched [] sched) :
    print_output_model e1 sched = print_output_model e2 sched
    ∧ (print_output_model e1 sched).out
        = (lastFile [] sched).take (print_output_model e1 sched).off :=
  ⟨rfl, (monRun_inv sched [] initMState h ⟨rfl, Nat.le_refl 0⟩).1⟩

/-- Witness for C6's amended theorem at a concrete schedule. -/
theorem submit_exit_code_ignored_inst :
    print_output_model 1 [(String.toList "ok\n", true)]
      = print_output_model 0 [(String.toList "ok\n", true)]
    ∧ (print_output_model 1 [(String.toList "ok\n", true)]).out
        = (lastFile [] [(String.toList "ok\n", true)]).take
            (print_output_model 1 [(String.toList "ok\n", true)]).off := by
  have hv : ValidSched [] [(String.toList "ok\n", true)] := by
    simp only [ValidSched, FileExtends]
    exact ⟨⟨String.toList "ok\n", by decide⟩, trivial⟩
  exact submit_exit_code_ignored 1 0 _ hv

/-- Model of `jobinfo = subprocess.check_output(['squeue', ...])`
(runjob.py line 165): `check_output` raises `CalledProcessError` when the
command exits non-zero; only a successful call returns captured stdout. -/
def check_output_squeue (exitCode : Int) (output : List Char) :
    Except Int (List Char) :=
  if exitCode = 0 then Except.ok output else Except.error exitCode

/-- One iteration of the `print_output` loop with the `squeue` exit status
made explicit: the chunk received from `file_iterator` is printed first
(runjob.py lines 163-164), then the query runs; a raising query propagates
the error out of the loop (carrying the exit code and the state whose
output was already printed), while a successful empty answer breaks. -/
def monStepE (file : List Char) (q : Int × List Char) (s : MState) :
    Except (Int × MState) MState :=
  if s.done then Except.ok s
  else
    let s1 := pollRead file s
    match check_output_squeue q.1 q.2 with
    | Except.error e => Except.error (e, s1)
    | Except.ok info => Except.ok { s1 with done := info.isEmpty }

/-- The monitoring loop with per-poll `squeue` exit statuses: an uncaught
`CalledProcessError` aborts the whole run (nothing catches it besides the
`KeyboardInterrupt` handler). -/
def monRunE :
    List (List Char × Int × List Char) → MState → Except (Int × MState) MState
  | [], s => Except.ok s
  | step :: rest, s =>
    match monStepE step.1 step.2 s with
    | Except.ok s1 => monRunE rest s1
    | Except.error e => Except.error e

/-- Counterexample to claim C9 as stated: a poll whose `squeue` exits with
status 1 makes the run abort with the propagated error — it does not
transition to Finished — whereas the same poll with a successful empty
answer does finish. The query failure and the empty result are therefore
distinguished. -/
theorem query_failure_raises_cex :
    monRunE [(String.toList "a\n", (1, String.toList "x"))] initMState
      = Except.error
          (1, { off := 2, pending := false, out := String.toList "a\n", done := false })
    ∧ monRunE [(String.toList "a\n", (0, []))] initMState
      = Except.ok
          { off := 2, pending := false, out := String.toList "a\n", done := true } :=
  ⟨rfl, rfl⟩

/-- Claim C9 (amended): a status query that exits non-zero raises and
aborts monitoring with an error outcome distinct from Finished (the chunk
printed in that iteration having already been forwarded); only a
successful query with empty output is treated as "job not running". -/
theorem query_failure_aborts_monitoring (file : List Char) (e : Int)
    (qout : List Char) (s : MState) (hs : s.done = false) :
    (e ≠ 0 → monStepE file (e, qout) s = Except.error (e, pollRead file s))
    ∧ (e = 0 → monStepE file (e, qout) s
        = Except.ok { pollRead file s with done := qout.isEmpty }) := by
  constructor
  · intro he
    simp [monStepE, check_output_squeue, hs, he]
  · intro he
    simp [monStepE, check_output_squeue, hs, he]

/-- Witness for C9's amended theorem at a concrete poll. -/
theorem query_failure_aborts_monitoring_inst :
    monStepE (String.toList "a\n") (1, String.toList "x") initMState
      = Except.error (1, pollRead (String.toList "a\n") initMState)
    ∧ monStepE (String.toList "a\n") (0, []) initMState
      = Except.ok
          { pollRead (String.toList "a\n") initMState with
              done := ([] : List Char).isEmpty } :=
  ⟨(query_failure_aborts_monitoring (String.toList "a\n") 1 (String.toList "x")
      initMState rfl).1 (by decide),
   (query_failure_aborts_monitoring (String.toList "a\n") 0 [] initMState rfl).2 rfl⟩

/- ===================================================================
   Interrupt handling (runjob.py lines 172-176).
   =================================================================== -/

/-- Outcome of a monitored run: either the loop ends normally and the
elapsed-time "Job finished" report is printed, or a `KeyboardInterrupt`
was caught and the run reports cancellation, with the list of `scancel`
invocations (each recorded by the cancelled job's name). -/
inductive RunOutcome where
  | finished (s : MState)
  | cancelled (scancels : List String)
deriving DecidableEq

/-- The `try: print_output() / except KeyboardInterrupt:` wrapper
(runjob.py lines 172-176), with an optional interrupt delivered before
loop iteration `k`: when the loop has not already ended by then, the
`KeyboardInterrupt` propagates to the handler, which runs exactly one
`subprocess.run(['scancel', '--name', job_name])` and prints
"Job cancelled." — the "Job finished" report is never reached. -/
def runjobMonitor (jobName : String) (sched : List (List Char × Bool))
    (intr : Option Nat) : RunOutcome :=
  match intr with
  | none => RunOutcome.finished (monRunFrom sched initMState)
  | some k =>
    if (monRunFrom (sched.take k) initMState).done then
      RunOutcome.finished (monRunFrom sched initMState)
    else
      RunOutcome.cancelled [jobName]

/-- Claim C7 (confirmed): an interrupt delivered while the monitor is
still streaming (the loop not yet ended) produces exactly one `scancel`
invocation, against the monitored job's name, reports a cancelling
termination, and never reports a finished termination for that run. -/
theorem interrupt_causes_single_cancel (jobName : String)
    (sched : List (List Char × Bool)) (k : Nat)
    (h : (monRunFrom (sched.take k) initMState).done = false) :
    runjobMonitor jobName sched (some k) = RunOutcome.cancelled [jobName]
    ∧ [jobName].length = 1
    ∧ (∀ s, runjobMonitor jobName sched (some k) ≠ RunOutcome.finished s) := by
  refine ⟨by simp [runjobMonitor, h], rfl, ?_⟩
  intro s
  simp [runjobMonitor, h]

/-- Witness for C7's theorem: interrupt at the first poll of a run. -/
theorem interrupt_causes_single_cancel_inst :
    runjobMonitor "job42" [(String.toList "x", false)] (some 0)
      = RunOutcome.cancelled ["job42"] :=
  (interrupt_causes_single_cancel "job42" [(String.toList "x", false)] 0
    (by decide)).1

/- ===================================================================
   Ordered mappings: Python 3.7+ `dict` / `OrderedDict` semantics.
   =================================================================== -/

/-- Python `d[k] = v` on an insertion-ordered mapping: an existing key is
updated in place keeping its position, a new key is appended at the end. -/
def dictInsert (k v : String) : List (String × String) → List (String × String)
  | [] => [(k, v)]
  | p :: rest => if p.1 = k then (k, v) :: rest else p :: dictInsert k v rest

/-- Python `d[k]` / `k in d` lookup on an insertion-ordered mapping. -/
def alookup {α : Type} (k : String) : List (String × α) → Option α
  | [] => none
  | p :: rest => if p.1 = k then some p.2 else alookup k rest

theorem alookup_dictInsert_self (k v : String) (l : List (String × String)) :
    alookup k (dictInsert k v l) = some v := by
  induction l with
  | nil => simp [dictInsert, alookup]
  | cons p rest ih =>
    by_cases h : p.1 = k
    · simp [dictInsert, h, alookup]
    · simp [dictInsert, h, alookup, ih]

theorem alookup_dictInsert_ne (k v q : String) (l : List (String × String))
    (h : k ≠ q) : alookup q (dictInsert k v l) = alookup q l := by
  induction l with
  | nil => simp [dictInsert, alookup, h]
  | cons p rest ih =>
    by_cases hp : p.1 = k
    · simp [dictInsert, hp, alookup, h]
    · simp [dictInsert, hp, alookup, ih]

/- ===================================================================
   ScriptGenerator: `make_job_script` (runjob.py lines 33-43).
   =================================================================== -/

/-- `make_job_script(flags, env, commands)` (runjob.py lines 33-43): a
shebang, the accumulated `#SBATCH --k=v` lines, a blank line, the
accumulated `export K=V` lines, a blank line, then the launch command.
The `script += ...` loop is the fold over the mapping's entries in
insertion order. -/
def make_job_script (flags env : List (String × String))
    (commands : String) : String :=
  let script := "#!/bin/bash\n"
  let script := flags.foldl
    (fun acc p => acc ++ ("#SBATCH --" ++ p.1 ++ "=" ++ p.2 ++ "\n")) script
  let script := script ++ "\n"
  let script := env.foldl
    (fun acc p => acc ++ ("export " ++ p.1 ++ "=" ++ p.2 ++ "\n")) script
  script ++ "\n" ++ commands

/-- Concatenation of rendered pieces (the closed form of a `+=` loop). -/
def catStr {β : Type} (g : β → String) : List β → String
  | [] => ""
  | b :: bs => g b ++ catStr g bs

theorem foldl_append_catStr {β : Type} (g : β → String) :
    ∀ (l : List β) (acc : String),
      l.foldl (fun acc b => acc ++ g b) acc = acc ++ catStr g l := by
  intro l
  induction l with
  | nil => intro acc; simp [catStr, String.append_empty]
  | cons b bs ih =>
    intro acc
    rw [List.foldl_cons, ih, catStr, ← String.append_assoc]

theorem catStr_map {β : Type} (f : β → String) (l : List β) :
    catStr (fun x => x ++ "\n") (l.map f)
      = catStr (fun x => f x ++ "\n") l := by
  induction l with
  | nil => rfl
  | cons b bs ih => simp [catStr, ih]

/-- One scheduler directive line, as the spec describes it:
`#SBATCH --<key>=<value>`. -/
def directiveLine (p : String × String) : String :=
  "#SBATCH --" ++ p.1 ++ "=" ++ p.2

/-- One environment export line, as the spec describes it:
`export <KEY>=<VALUE>`. -/
def exportLine (p : String × String) : String :=
  "export " ++ p.1 ++ "=" ++ p.2

/-- Join a list of lines with newlines (no trailing newline). -/
def unlines : List String → String
  | [] => ""
  | [x] => x
  | x :: y :: ys => x ++ "\n" ++ unlines (y :: ys)

/-- Modelled from the spec's words (section 4.2): the directive script is
the line list — shebang, one directive line per `resource_flags` entry in
insertion order, a blank line, one export line per `environment` entry in
insertion order, a blank line, the literal launch command — joined by
newlines. Used only to compare `make_job_script` against the spec. -/
def spec_directive_script (flags env : List (String × String))
    (command : String) : String :=
  unlines (["#!/bin/bash"] ++ flags.map directiveLine ++ [""]
    ++ env.map exportLine ++ [""] ++ [command])

theorem unlines_cons_cons (x y : String) (ys : List String) :
    unlines (x :: y :: ys) = x ++ "\n" ++ unlines (y :: ys) := rfl

theorem unlines_append (l : List String) (r : String) (rs : List String) :
    unlines (l ++ r :: rs)
      = catStr (fun x => x ++ "\n") l ++ unlines (r :: rs) := by
  induction l with
  | nil => simp [catStr, String.empty_append]
  | cons x l ih =>
    cases l with
    | nil =>
      show unlines (x :: r :: rs) = ((x ++ "\n") ++ "") ++ unlines (r :: rs)
      rw [String.append_empty]
      rfl
    | cons y l2 =>
      simp only [List.cons_append]
      rw [unlines_cons_cons, ← List.cons_append, ih]
      simp [catStr, String.append_assoc]

/-- Claim C4 (confirmed): `make_job_script` is a pure function (a Lean
function of its arguments, so identical input gives byte-identical output)
whose result is exactly the spec's line layout: shebang, one
`#SBATCH --<key>=<value>` line per flags entry in insertion order, a blank
line, one `export <KEY>=<VALUE>` line per environment entry in insertion
order, a blank line, then the literal launch command. -/
theorem make_job_script_format (flags env : List (String × String))
    (cmd : String) :
    make_job_script flags env cmd = spec_directive_script flags env cmd := by
  unfold make_job_script spec_directive_script
  dsimp only
  rw [foldl_append_catStr, foldl_append_catStr]
  simp only [List.append_assoc, List.cons_append, List.nil_append]
  have h1 : ("#!/bin/bash" : String) :: (flags.map directiveLine
        ++ "" :: (env.map exportLine ++ "" :: [cmd]))
      = ("#!/bin/bash" :: flags.map directiveLine)
          ++ "" :: (env.map exportLine ++ "" :: [cmd]) :=
    (List.cons_append _ _ _).symm
  rw [h1, unlines_append]
  have h2 : ("" : String) :: (env.map exportLine ++ "" :: [cmd])
      = ("" :: env.map exportLine) ++ "" :: [cmd] :=
    (List.cons_append _ _ _).symm
  rw [h2, unlines_append]
  have hlit : ("#!/bin/bash\n" : String) = "#!/bin/bash" ++ "\n" := rfl
  rw [hlit]
  simp only [catStr]
  rw [catStr_map, catStr_map]
  simp [directiveLine, exportLine, unlines, String.append_assoc,
    String.empty_append]

/- ===================================================================
   ParameterResolver: the resolution part of `runjob`
   (runjob.py lines 59-112), as a pure function of the cached
   configuration and the parsed CLI arguments.
   =================================================================== -/

/-- A queue entry of the site configuration (`cfg['gpu_queues'][name]`). -/
structure Queue where
  flags : List (String × String)
  n_gpus_per_node : Nat
  n_cpus_per_node : Nat
deriving DecidableEq

/-- A project entry of the site configuration (`cfg['projects'][name]`);
`default_queue` is optional (`'default_queue' in project`). -/
structure Project where
  dir : String
  conda_env : String
  preamble : String
  default_queue : Option String
deriving DecidableEq

/-- The loaded site configuration. `storage_root` stands for
`cfg['storage']['root']` and `conda_root` for `cfg['conda']['root']`
(path expansion by `resolve_path` is an external collaborator, so values
are taken as already resolved). -/
structure Config where
  projects : List (String × Project)
  default_project : String
  gpu_queues : List (String × Queue)
  default_queue : String
  storage_root : String
  conda_root : String
deriving DecidableEq

/-- Parsed CLI arguments of `runjob` (runjob.py lines 60-68). `ngpus` is
taken as a natural number (the claims quantify over positive counts);
`jobid` is the value after argparse applied its default. -/
structure Args where
  project : String
  queue : String
  ngpus : Nat
  time : String
  jobid : String
  assign_gpu : Bool
  command : List String
deriving DecidableEq

/-- The resolution failures (spec taxonomy `ConfigurationError`): in the
source, `noConfig` and `noCommand` are raised as `ValueError`
(runjob.py lines 71-77) and the unknown project/queue cases surface as
the uncaught `KeyError` of `projects[args.project]` (line 87) and
`queues[args.queue]` (line 95). -/
inductive ConfigError where
  | noConfig
  | noCommand
  | unknownProject (name : String)
  | unknownQueue (name : String)
deriving DecidableEq

/-- The fully resolved job specification produced by resolution and
consumed by script generation and submission. -/
structure JobSpec where
  job_name : String
  job_dir : String
  flags : List (String × String)
  env : List (String × String)
  command : String
  assign_gpu : Bool
deriving DecidableEq

/-- `if not args.project: args.project = cfg['default_project']`
(runjob.py lines 84-86). -/
def projectNameOf (cfg : Config) (override : String) : String :=
  if override = "" then cfg.default_project else override

/-- `if not args.queue: ...` (runjob.py lines 89-94): an empty override
falls back to the project's `default_queue` when present, else to the
global `default_queue`. -/
def queueNameOf (cfg : Config) (project : Project) (override : String) :
    String :=
  if override = "" then
    match project.default_queue with
    | some q => q
    | none => cfg.default_queue
  else override

/-- The argparse default for `--jobid` (runjob.py line 64): a random
numeric id `str(np.random.randint(1e9))` used only when no explicit
override was given. -/
def jobNameOf (override : Option String) (rand : Nat) : String :=
  match override with
  | some j => j
  | none => toString (rand % 1000000000)

/-- `' '.join(args.command)` (runjob.py line 77). -/
def joinSpace : List String → String
  | [] => ""
  | [x] => x
  | x :: y :: ys => x ++ " " ++ joinSpace (y :: ys)

/-- The resource-flag construction (runjob.py lines 103-112), applied to
the selected queue's base flags in source order: optional `time`
override, `ntasks`, `ntasks-per-node = min(args.ngpus, n_gpus_per_node)`,
`cpus-per-task = int(n_cpus_per_node / n_gpus_per_node)` (floor division
on positive integers), `job-name`, `gres`, `output` and `error` both set
to `<job_dir>/stdout.out`. -/
def buildFlags (queue : Queue) (args : Args) (job_name job_dir : String) :
    List (String × String) :=
  let flags := queue.flags
  let flags := if args.time = "" then flags else dictInsert "time" args.time flags
  let flags := dictInsert "ntasks" (toString args.ngpus) flags
  let n_proc_per_node := min args.ngpus queue.n_gpus_per_node
  let n_cpus_per_gpu := queue.n_cpus_per_node / queue.n_gpus_per_node
  let flags := dictInsert "ntasks-per-node" (toString n_proc_per_node) flags
  let flags := dictInsert "cpus-per-task" (toString n_cpus_per_gpu) flags
  let flags := dictInsert "job-name" job_name flags
  let flags := dictInsert "gres" ("gpu:" ++ toString n_proc_per_node) flags
  let flags := dictInsert "output" (job_dir ++ "/stdout.out") flags
  dictInsert "error" (job_dir ++ "/stdout.out") flags

/-- The environment block (runjob.py lines 114-124), an `OrderedDict`
updated in source order. -/
def buildEnv (cfg : Config) (project : Project) (queue : Queue)
    (args : Args) (job_dir : String) : List (String × String) :=
  [("JOB_DIR", job_dir),
   ("PROJECT_DIR", project.dir),
   ("CONDA_ROOT", cfg.conda_root),
   ("CONDA_ENV", project.conda_env),
   ("N_CPUS", toString (queue.n_cpus_per_node / queue.n_gpus_per_node)),
   ("N_PROCS", toString args.ngpus),
   ("PROC_ID", "${SLURM_PROCID}"),
   ("OUT_FILE", "${JOB_DIR}/proc=${PROC_ID}.out")]

/-- Parameter resolution (runjob.py lines 70-112): a missing cache file
raises first (line 71-74), then a missing command (lines 76-77), then the
project and queue lookups (lines 84-95); on success the resolved job
specification is produced. `cache = none` models the `FileNotFoundError`
on the cached configuration pointer. -/
def runjobResolve (cache : Option Config) (args : Args) :
    Except ConfigError JobSpec :=
  match cache with
  | none => Except.error ConfigError.noConfig
  | some cfg =>
    if args.command = [] then Except.error ConfigError.noCommand
    else
      let projName := projectNameOf cfg args.project
      match alookup projName cfg.projects with
      | none => Except.error (ConfigError.unknownProject projName)
      | some project =>
        let qName := queueNameOf cfg project args.queue
        match alookup qName cfg.gpu_queues with
        | none => Except.error (ConfigError.unknownQueue qName)
        | some queue =>
          let job_name := args.jobid
          let job_dir := cfg.storage_root ++ "/" ++ job_name
          Except.ok
            { job_name := job_name
            , job_dir := job_dir
            , flags := buildFlags queue args job_name job_dir
            , env := buildEnv cfg project queue args job_dir
            , command := joinSpace args.command
            , assign_gpu := args.assign_gpu }

/-- The file tailed by the monitor, `follow_file = job_dir / 'proc=0.out'`
(runjob.py line 156). -/
def followFileOf (spec : JobSpec) : String :=
  spec.job_dir ++ "/proc=0.out"

/-- The generated directive script,
`make_job_script(flags, env, f'srun bash {bash_script_path}')`
(runjob.py lines 141-143). -/
def slurmScriptOf (spec : JobSpec) : String :=
  make_job_script spec.flags spec.env
    ("srun bash " ++ (spec.job_dir ++ "/script.sh"))

/-- The submit-then-monitor pipeline: resolution errors propagate before
any submission or monitoring takes place (`print_output` is only reached
after scripts are generated and written, runjob.py lines 126-170). -/
def runjobPipeline (cache : Option Config) (args : Args)
    (sched : List (List Char × Bool)) :
    Except ConfigError (JobSpec × MState) :=
  match runjobResolve cache args with
  | Except.error e => Except.error e
  | Except.ok spec => Except.ok (spec, monRunFrom sched initMState)

/-- Discriminator for `Except` results. -/
def exceptIsOk {ε α : Type} : Except ε α → Bool
  | Except.ok _ => true
  | Except.error _ => false

/-- Split a rendered script into its lines (split at each newline). -/
def splitCharLines : List Char → List (List Char)
  | [] => [[]]
  | c :: cs =>
    if c = '\n' then [] :: splitCharLines cs
    else
      match splitCharLines cs with
      | [] => [[c]]
      | l :: ls => (c :: l) :: ls

/-- String-level line splitting used to inspect generated scripts. -/
def splitLines (s : String) : List String :=
  (splitCharLines s.data).map (fun l => String.mk l)

/- ===== concrete example configuration (the spec's end-to-end scenario:
command "echo hi", 2 GPUs requested, 4 GPUs and 32 CPUs per node) ===== -/

def exampleQueue : Queue :=
  { flags := [("partition", "gpu")], n_gpus_per_node := 4, n_cpus_per_node := 32 }

def exampleProject : Project :=
  { dir := "/home/user/proj", conda_env := "ml", preamble := "preamble.sh",
    default_queue := some "gpuq" }

def exampleCfg : Config :=
  { projects := [("proj", exampleProject)], default_project := "proj",
    gpu_queues := [("gpuq", exampleQueue)], default_queue := "gpuq",
    storage_root := "/store", conda_root := "/conda" }

def exampleArgs : Args :=
  { project := "", queue := "", ngpus := 2, time := "", jobid := "42",
    assign_gpu := true, command := ["echo", "hi"] }

def exampleSpecValue : JobSpec :=
  { job_name := "42", job_dir := "/store/42",
    flags := buildFlags exampleQueue exampleArgs "42" "/store/42",
    env := buildEnv exampleCfg exampleProject exampleQueue exampleArgs "/store/42",
    command := "echo hi", assign_gpu := true }

/-- Lines of the directive script generated for the example scenario. -/
def exampleScriptLines : List String :=
  splitLines (slurmScriptOf exampleSpecValue)

/- ===== claims about resolution and the generated script ===== -/

/-- Claim C3 (confirmed): for positive GPU and CPU counts, resolution sets
the `ntasks-per-node` directive to `min(gpus_requested, gpus_per_node)`
and the `cpus-per-task` directive to `floor(cpus_per_node /
gpus_per_node)` (natural-number division), and in the end-to-end scenario
(2 GPUs requested on a 4-GPU / 32-CPU queue) the generated directive
script contains the lines `#SBATCH --ntasks-per-node=2` and
`#SBATCH --cpus-per-task=8`. -/
theorem gpu_derived_flags_correct (queue : Queue) (args : Args)
    (jn jd : String) (_h1 : 0 < args.ngpus)
    (_h2 : 0 < queue.n_gpus_per_node) (_h3 : 0 < queue.n_cpus_per_node) :
    alookup "ntasks-per-node" (buildFlags queue args jn jd)
        = some (toString (min args.ngpus queue.n_gpus_per_node))
    ∧ alookup "cpus-per-task" (buildFlags queue args jn jd)
        = some (toString (queue.n_cpus_per_node / queue.n_gpus_per_node))
    ∧ "#SBATCH --ntasks-per-node=2" ∈ exampleScriptLines
    ∧ "#SBATCH --cpus-per-task=8" ∈ exampleScriptLines := by
  refine ⟨?_, ?_, by decide, by decide⟩
  · unfold buildFlags
    dsimp only
    rw [alookup_dictInsert_ne _ _ _ _ (by decide),
        alookup_dictInsert_ne _ _ _ _ (by decide),
        alookup_dictInsert_ne _ _ _ _ (by decide),
        alookup_dictInsert_ne _ _ _ _ (by decide),
        alookup_dictInsert_ne _ _ _ _ (by decide),
        alookup_dictInsert_self]
  · unfold buildFlags
    dsimp only
    rw [alookup_dictInsert_ne _ _ _ _ (by decide),
        alookup_dictInsert_ne _ _ _ _ (by decide),
        alookup_dictInsert_ne _ _ _ _ (by decide),
        alookup_dictInsert_ne _ _ _ _ (by decide),
        alookup_dictInsert_self]

/-- Witness for C3's theorem at the end-to-end scenario's inputs. -/
theorem gpu_derived_flags_correct_inst :
    alookup "ntasks-per-node" (buildFlags exampleQueue exampleArgs "42" "/store/42")
        = some (toString (min exampleArgs.ngpus exampleQueue.n_gpus_per_node))
    ∧ alookup "cpus-per-task" (buildFlags exampleQueue exampleArgs "42" "/store/42")
        = some (toString
            (exampleQueue.n_cpus_per_node / exampleQueue.n_gpus_per_node)) :=
  ⟨(gpu_derived_flags_correct exampleQueue exampleArgs "42" "/store/42"
      (by decide) (by decide) (by decide)).1,
   (gpu_derived_flags_correct exampleQueue exampleArgs "42" "/store/42"
      (by decide) (by decide) (by decide)).2.1⟩

/-- Claim C5 (confirmed): resolution fails exactly when no configuration
is cached, or no command tokens were supplied, or the resolved project
name is absent from the configuration, or the resolved queue name is
absent; and any such failure propagates out of the pipeline before any
submission or monitoring happens. -/
theorem resolve_error_cases (cache : Option Config) (args : Args) :
    (exceptIsOk (runjobResolve cache args) = false ↔
      cache = none
      ∨ args.command = []
      ∨ (∃ cfg, cache = some cfg
          ∧ alookup (projectNameOf cfg args.project) cfg.projects = none)
      ∨ (∃ cfg project, cache = some cfg
          ∧ alookup (projectNameOf cfg args.project) cfg.projects = some project
          ∧ alookup (queueNameOf cfg project args.queue) cfg.gpu_queues = none))
    ∧ (∀ e, runjobResolve cache args = Except.error e →
        ∀ sched, runjobPipeline cache args sched = Except.error e) := by
  constructor
  · cases cache with
    | none => simp [runjobResolve, exceptIsOk]
    | some cfg =>
      by_cases hc : args.command = []
      · simp [runjobResolve, hc, exceptIsOk]
      · cases hp : alookup (projectNameOf cfg args.project) cfg.projects with
        | none => simp [runjobResolve, hc, hp, exceptIsOk]
        | some project =>
          cases hq : alookup (queueNameOf cfg project args.queue) cfg.gpu_queues with
          | none => simp [runjobResolve, hc, hp, hq, exceptIsOk]
          | some queue => simp [runjobResolve, hc, hp, hq, exceptIsOk]
  · intro e he sched
    simp [runjobPipeline, he]

/-- Witness for C5's theorem: with no cached configuration, resolution
fails and the pipeline yields the configuration error with no monitor
state produced. -/
theorem resolve_error_cases_inst :
    exceptIsOk (runjobResolve none exampleArgs) = false
    ∧ runjobPipeline none exampleArgs [] = Except.error ConfigError.noConfig :=
  ⟨(resolve_error_cases none exampleArgs).1.mpr (Or.inl rfl),
   (resolve_error_cases none exampleArgs).2 ConfigError.noConfig rfl []⟩

/-- Claim C8 (confirmed): resolution precedence — a non-empty queue
override wins over the project's default queue, which wins over the
global default queue; a non-empty project override wins over the global
default project; an explicit job id wins over the computed random id; an
explicit time limit overrides the queue's flags, which are kept verbatim
otherwise. -/
theorem resolution_precedence (cfg : Config) (project : Project)
    (ov : String) (rand : Nat) (j : String) (queue : Queue) (args : Args)
    (jn jd : String) :
    (ov ≠ "" → queueNameOf cfg project ov = ov)
    ∧ (∀ q, project.default_queue = some q → queueNameOf cfg project "" = q)
    ∧ (project.default_queue = none →
        queueNameOf cfg project "" = cfg.default_queue)
    ∧ (ov ≠ "" → projectNameOf cfg ov = ov)
    ∧ projectNameOf cfg "" = cfg.default_project
    ∧ jobNameOf (some j) rand = j
    ∧ jobNameOf none rand = toString (rand % 1000000000)
    ∧ (args.time ≠ "" →
        alookup "time" (buildFlags queue args jn jd) = some args.time)
    ∧ (args.time = "" →
        alookup "time" (buildFlags queue args jn jd)
          = alookup "time" queue.flags) := by
  refine ⟨?_, ?_, ?_, ?_, rfl, rfl, rfl, ?_, ?_⟩
  · intro h
    simp [queueNameOf, h]
  · intro q hq
    simp [queueNameOf, hq]
  · intro hn
    simp [queueNameOf, hn]
  · intro h
    simp [projectNameOf, h]
  · intro ht
    unfold buildFlags
    dsimp only
    rw [alookup_dictInsert_ne _ _ _ _ (by decide),
        alookup_dictInsert_ne _ _ _ _ (by decide),
        alookup_dictInsert_ne _ _ _ _ (by decide),
        alookup_dictInsert_ne _ _ _ _ (by decide),
        alookup_dictInsert_ne _ _ _ _ (by decide),
        alookup_dictInsert_ne _ _ _ _ (by decide),
        alookup_dictInsert_ne _ _ _ _ (by decide),
        if_neg ht, alookup_dictInsert_self]
  · intro ht
    unfold buildFlags
    dsimp only
    rw [alookup_dictInsert_ne _ _ _ _ (by decide),
        alookup_dictInsert_ne _ _ _ _ (by decide),
        alookup_dictInsert_ne _ _ _ _ (by decide),
        alookup_dictInsert_ne _ _ _ _ (by decide),
        alookup_dictInsert_ne _ _ _ _ (by decide),
        alookup_dictInsert_ne _ _ _ _ (by decide),
        alookup_dictInsert_ne _ _ _ _ (by decide),
        if_pos ht]

/-- Witness for C8's theorem at concrete inputs: the override "fast"
beats the project default "q1"; with no override the project default
"q1" beats the global default; with neither, the global default is used;
and the explicit time "01:00" lands in the flags. -/
theorem resolution_precedence_inst :
    queueNameOf exampleCfg exampleProject "fast" = "fast"
    ∧ queueNameOf exampleCfg exampleProject "" = "gpuq"
    ∧ queueNameOf exampleCfg
        { exampleProject with default_queue := none } "" = exampleCfg.default_queue
    ∧ jobNameOf (some "42") 7 = "42"
    ∧ alookup "time"
        (buildFlags exampleQueue { exampleArgs with time := "01:00" } "42" "/store/42")
        = some "01:00" := by
  refine ⟨?_, ?_, ?_, ?_, ?_⟩
  · exact (resolution_precedence exampleCfg exampleProject "fast" 7 "42"
      exampleQueue exampleArgs "42" "/store/42").1 (by decide)
  · exact (resolution_precedence exampleCfg exampleProject "fast" 7 "42"
      exampleQueue exampleArgs "42" "/store/42").2.1 "gpuq" rfl
  · exact (resolution_precedence exampleCfg
      { exampleProject with default_queue := none } "fast" 7 "42"
      exampleQueue exampleArgs "42" "/store/42").2.2.1 rfl
  · exact (resolution_precedence exampleCfg exampleProject "fast" 7 "42"
      exampleQueue exampleArgs "42" "/store/42").2.2.2.2.2.1
  · exact (resolution_precedence exampleCfg exampleProject "fast" 7 "42"
      exampleQueue { exampleArgs with time := "01:00" } "42"
      "/store/42").2.2.2.2.2.2.2.1 (by decide)

/-- The monitored file `<job_dir>/proc=0.out` differs from the
scheduler-level output file `<job_dir>/stdout.out`. -/
theorem followFile_ne_stdout (a : String) :
    a ++ "/proc=0.out" ≠ a ++ "/stdout.out" := by
  intro h
  have h2 : (a ++ "/proc=0.out").data = (a ++ "/stdout.out").data :=
    congrArg String.data h
  rw [String.data_append, String.data_append] at h2
  have h3 := List.append_cancel_left h2
  exact absurd h3 (by decide)

/-- Claim C10 (confirmed): every successfully resolved specification sets
both the `output` and the `error` directives to the same file
`<job_dir>/stdout.out`, while the file the monitor tails is the distinct
path `<job_dir>/proc=0.out`, so the scheduler-level output file is never
the one streamed. -/
theorem output_directive_differs_from_followed_file (cache : Option Config)
    (args : Args) (spec : JobSpec)
    (h : runjobResolve cache args = Except.ok spec) :
    alookup "output" spec.flags = some (spec.job_dir ++ "/stdout.out")
    ∧ alookup "error" spec.flags = some (spec.job_dir ++ "/stdout.out")
    ∧ followFileOf spec ≠ spec.job_dir ++ "/stdout.out" := by
  cases cache with
  | none => simp [runjobResolve] at h
  | some cfg =>
    by_cases hc : args.command = []
    · simp [runjobResolve, hc] at h
    · cases hp : alookup (projectNameOf cfg args.project) cfg.projects with
      | none => simp [runjobResolve, hc, hp] at h
      | some project =>
        cases hq : alookup (queueNameOf cfg project args.queue) cfg.gpu_queues with
        | none => simp [runjobResolve, hc, hp, hq] at h
        | some queue =>
          simp [runjobResolve, hc, hp, hq] at h
          subst h
          refine ⟨?_, ?_, followFile_ne_stdout _⟩
          · show alookup "output"
              (buildFlags queue args args.jobid
                (cfg.storage_root ++ "/" ++ args.jobid)) = _
            unfold buildFlags
            dsimp only
            rw [alookup_dictInsert_ne _ _ _ _ (by decide),
                alookup_dictInsert_self]
          · show alookup "error"
              (buildFlags queue args args.jobid
                (cfg.storage_root ++ "/" ++ args.jobid)) = _
            unfold buildFlags
            dsimp only
            rw [alookup_dictInsert_self]

/-- Witness for C10's theorem at the example configuration. -/
theorem output_directive_differs_inst :
    alookup "output" exampleSpecValue.flags
        = some (exampleSpecValue.job_dir ++ "/stdout.out")
    ∧ alookup "error" exampleSpecValue.flags
        = some (exampleSpecValue.job_dir ++ "/stdout.out")
    ∧ followFileOf exampleSpecValue
        ≠ exampleSpecValue.job_dir ++ "/stdout.out" :=
  output_directive_differs_from_followed_file (some exampleCfg) exampleArgs
    exampleSpecValue rfl

end JobRunner
